import Mathlib

/-!
Shallow embedding of the cryptoData ingestion pipeline.

The repository has two near-duplicated scripts, src/deribit.py and
src/extract_crypto_data_parallel.py.  Where the two variants diverge we embed
both, suffixing the parallel variant with _parallel (or _p).  Timestamps are
epoch milliseconds modelled as Nat; prices and other numeric payload values are
modelled by an arbitrary type parameter because the merge and skip logic never
looks inside them.
-/

namespace CryptoData

/-! ## TimeframeClock (get_timeframe_duration_ms, both variants)

Both scripts hold the identical 16-entry dict `timeframe_map` and differ only
in the default handed to `dict.get`: deribit.py line 772 defaults to one hour,
extract_crypto_data_parallel.py line 212 defaults to one minute.  The dict
lookup is embedded as a first-match if-chain. -/

/-- First-match association lookup, the embedding of a Python dict read. -/
def assoc_get : List (String × Nat) → String → Option Nat
  | [], _ => none
  | (k, v) :: rest, tf => if tf = k then some v else assoc_get rest tf

/-- The `timeframe_map` dict shared by both variants. -/
def timeframe_map : List (String × Nat) :=
  [("1s", 1000), ("1m", 60 * 1000), ("3m", 3 * 60 * 1000),
   ("5m", 5 * 60 * 1000), ("15m", 15 * 60 * 1000), ("30m", 30 * 60 * 1000),
   ("1h", 60 * 60 * 1000), ("2h", 2 * 60 * 60 * 1000),
   ("4h", 4 * 60 * 60 * 1000), ("6h", 6 * 60 * 60 * 1000),
   ("8h", 8 * 60 * 60 * 1000), ("12h", 12 * 60 * 60 * 1000),
   ("1d", 24 * 60 * 60 * 1000), ("3d", 3 * 24 * 60 * 60 * 1000),
   ("1w", 7 * 24 * 60 * 60 * 1000), ("1M", 30 * 24 * 60 * 60 * 1000)]

/-- The `timeframe_map` dict lookup: `some` on the 16 known labels, `none`
otherwise. -/
def timeframe_map_lookup (timeframe : String) : Option Nat :=
  assoc_get timeframe_map timeframe

/-- `get_timeframe_duration_ms` of deribit.py:
`timeframe_map.get(timeframe, 60 * 60 * 1000)`. -/
def get_timeframe_duration_ms (timeframe : String) : Nat :=
  (timeframe_map_lookup timeframe).getD (60 * 60 * 1000)

/-- `get_timeframe_duration_ms` of extract_crypto_data_parallel.py:
`timeframe_map.get(timeframe, 60 * 1000)`. -/
def get_timeframe_duration_ms_parallel (timeframe : String) : Nat :=
  (timeframe_map_lookup timeframe).getD (60 * 1000)

/-! ## ResumePointResolver (fetch_all_public_data preamble, both variants)

`get_listing_timestamp` (both variants): the instrument listing time from
`market_info["created"]` when present and parsable, otherwise epoch ms of
"5 years before now".  We model the created field after parsing as an
`Option Nat` and pass the current time explicitly. -/

/-- `get_listing_timestamp`: listing time if the venue provides one, else the
5-years-before-now default (5 * 365 days in ms). -/
def get_listing_timestamp (created : Option Nat) (now_ms : Nat) : Nat :=
  match created with
  | some c => c
  | none => now_ms - 5 * 365 * 24 * 60 * 60 * 1000

/-- deribit.py lines 560-566: the resolved last timestamp merges the
checkpoint timestamp and the database MAX(timestamp), taking the max when both
exist. -/
def last_timestamp_deribit (checkpoint_timestamp db_timestamp : Option Nat) :
    Option Nat :=
  match checkpoint_timestamp, db_timestamp with
  | some c, some d => some (max c d)
  | some c, none => some c
  | none, some d => some d
  | none, none => none

/-- extract_crypto_data_parallel.py lines 484-491: the checkpoint timestamp is
parsed into a local variable that is never consulted; the chain reads
`if db_timestamp: last = db_timestamp elif db_timestamp: last = db_timestamp`,
so only the database timestamp matters. -/
def last_timestamp_parallel (_checkpoint_timestamp db_timestamp : Option Nat) :
    Option Nat :=
  match db_timestamp with
  | some d => some d
  | none => none

/-- deribit.py lines 568-576: `since` is the resolved last timestamp plus one
timeframe duration, or the listing time when no last timestamp exists. -/
def resolve_since_deribit (checkpoint_timestamp db_timestamp : Option Nat)
    (timeframe : String) (created : Option Nat) (now_ms : Nat) : Nat :=
  match last_timestamp_deribit checkpoint_timestamp db_timestamp with
  | some t => t + get_timeframe_duration_ms timeframe
  | none => get_listing_timestamp created now_ms

/-- extract_crypto_data_parallel.py lines 493-501: same shape as the deribit
variant but on top of `last_timestamp_parallel` and the parallel timeframe
default. -/
def resolve_since_parallel (checkpoint_timestamp db_timestamp : Option Nat)
    (timeframe : String) (created : Option Nat) (now_ms : Nat) : Nat :=
  match last_timestamp_parallel checkpoint_timestamp db_timestamp with
  | some t => t + get_timeframe_duration_ms_parallel timeframe
  | none => get_listing_timestamp created now_ms

/-! ## RecordMerger/Upsert: the ON DUPLICATE KEY UPDATE semantics

A stored row is keyed by timestamp; we embed only the mutable data columns,
each as `Option α` for an arbitrary payload type `α` (SQL NULL = `none`).
MySQL `col = VALUES(col)` overwrites with the incoming value,
`col = COALESCE(VALUES(col), col)` keeps the stored value when the incoming
one is NULL, and a column absent from the update list keeps its stored value.
-/

/-- SQL `COALESCE(VALUES(col), col)`. -/
def coalesce {α : Type} (incoming stored : Option α) : Option α :=
  match incoming with
  | some v => some v
  | none => stored

/-- The data columns of a deribit.py instrument table (create_instrument_table
lines 183-223), minus the synthetic id/created_at columns. -/
structure DeribitRow (α : Type) where
  open_price : Option α
  high : Option α
  low : Option α
  close : Option α
  volume : Option α
  quote_volume : Option α
  trades_count : Option α
  bid : Option α
  ask : Option α
  bid_volume : Option α
  ask_volume : Option α
  last_price : Option α
  change_24h : Option α
  change_percent_24h : Option α
  funding_rate : Option α
  open_interest : Option α
  funding_rate_next : Option α
  funding_rate_predicted : Option α
  strike_price : Option α
  option_type : Option α
  expiry_date : Option α
  best_bid : Option α
  best_ask : Option α
  best_bid_size : Option α
  best_ask_size : Option α
deriving Inhabited

/-- The ON DUPLICATE KEY UPDATE clause of deribit.py insert_comprehensive_data
(lines 383-403), applied when the incoming row hits an existing timestamp key.
OHLCV and trades_count use `VALUES(col)`; the auxiliary ticker, order-book,
funding and open-interest columns use `COALESCE(VALUES(col), col)`; the
columns funding_rate_next, funding_rate_predicted, strike_price, option_type
and expiry_date are absent from the update list and keep their stored value. -/
def deribit_upsert_update {α : Type} (stored incoming : DeribitRow α) :
    DeribitRow α where
  open_price := incoming.open_price
  high := incoming.high
  low := incoming.low
  close := incoming.close
  volume := incoming.volume
  quote_volume := coalesce incoming.quote_volume stored.quote_volume
  trades_count := incoming.trades_count
  bid := coalesce incoming.bid stored.bid
  ask := coalesce incoming.ask stored.ask
  bid_volume := coalesce incoming.bid_volume stored.bid_volume
  ask_volume := coalesce incoming.ask_volume stored.ask_volume
  last_price := coalesce incoming.last_price stored.last_price
  change_24h := coalesce incoming.change_24h stored.change_24h
  change_percent_24h := coalesce incoming.change_percent_24h stored.change_percent_24h
  funding_rate := coalesce incoming.funding_rate stored.funding_rate
  open_interest := coalesce incoming.open_interest stored.open_interest
  funding_rate_next := stored.funding_rate_next
  funding_rate_predicted := stored.funding_rate_predicted
  strike_price := stored.strike_price
  option_type := stored.option_type
  expiry_date := stored.expiry_date
  best_bid := coalesce incoming.best_bid stored.best_bid
  best_ask := coalesce incoming.best_ask stored.best_ask
  best_bid_size := coalesce incoming.best_bid_size stored.best_bid_size
  best_ask_size := coalesce incoming.best_ask_size stored.best_ask_size

/-- The data columns of an extract_crypto_data_parallel.py instrument table
(create_instrument_table lines 238-274), minus the key and audit columns. -/
structure ParallelRow (α : Type) where
  open_price : Option α
  high : Option α
  low : Option α
  close : Option α
  volume : Option α
  trade_count : Option α
  ticker_bid : Option α
  ticker_ask : Option α
  ticker_last : Option α
  ticker_volume_24h : Option α
  ticker_high_24h : Option α
  ticker_low_24h : Option α
  ticker_change_24h : Option α
  orderbook_bids_price : Option α
  orderbook_bids_amount : Option α
  orderbook_asks_price : Option α
  orderbook_asks_amount : Option α
  funding_rate : Option α
  open_interest : Option α
  options_strike : Option α
  options_expiry : Option α
  options_type : Option α
  options_underlying : Option α
  options_iv : Option α
  options_delta : Option α
  options_gamma : Option α
  options_theta : Option α
  options_vega : Option α
deriving Inhabited

/-- The ON DUPLICATE KEY UPDATE clause of extract_crypto_data_parallel.py
insert_comprehensive_data (lines 415-444): every data column is set to
`VALUES(col)`, an unconditional overwrite with the incoming value, NULL
included; no COALESCE appears. -/
def parallel_upsert_update {α : Type} (_stored incoming : ParallelRow α) :
    ParallelRow α where
  open_price := incoming.open_price
  high := incoming.high
  low := incoming.low
  close := incoming.close
  volume := incoming.volume
  trade_count := incoming.trade_count
  ticker_bid := incoming.ticker_bid
  ticker_ask := incoming.ticker_ask
  ticker_last := incoming.ticker_last
  ticker_volume_24h := incoming.ticker_volume_24h
  ticker_high_24h := incoming.ticker_high_24h
  ticker_low_24h := incoming.ticker_low_24h
  ticker_change_24h := incoming.ticker_change_24h
  orderbook_bids_price := incoming.orderbook_bids_price
  orderbook_bids_amount := incoming.orderbook_bids_amount
  orderbook_asks_price := incoming.orderbook_asks_price
  orderbook_asks_amount := incoming.orderbook_asks_amount
  funding_rate := incoming.funding_rate
  open_interest := incoming.open_interest
  options_strike := incoming.options_strike
  options_expiry := incoming.options_expiry
  options_type := incoming.options_type
  options_underlying := incoming.options_underlying
  options_iv := incoming.options_iv
  options_delta := incoming.options_delta
  options_gamma := incoming.options_gamma
  options_theta := incoming.options_theta
  options_vega := incoming.options_vega

/-- Field-wise COALESCE behaviour: an incoming NULL keeps the stored value, an
incoming non-NULL value replaces it. -/
def coalesce_ok {α : Type} (incoming stored result : Option α) : Prop :=
  (incoming = none → result = stored) ∧
    ∀ v, incoming = some v → result = some v

/-! ## Per-candle extraction inside insert_comprehensive_data

A ccxt candle is a list `[ts, open, high, low, close, volume, extra]`; the
scripts read index k guarded by `len(candle) > k and candle[k] is not None`,
which we collapse into an `Option α` per slot (slot 6 is read as quote_volume
by the deribit variant and as trade_count by the parallel one). -/

/-- One fetched candle. -/
structure Candle (α : Type) where
  ts : Nat
  open_price : Option α
  high : Option α
  low : Option α
  close : Option α
  volume : Option α
  slot6 : Option α

/-- The OHLCV part of the row written by deribit.py insert_comprehensive_data;
the NOT NULL schema columns are bare values here. -/
structure DeribitOhlcv (α : Type) where
  ts : Nat
  open_price : α
  high : α
  low : α
  close : α
  volume : α
  quote_volume : Option α

/-- deribit.py insert_comprehensive_data lines 286-296: volume defaults to
zero when absent, and the candle is skipped (`continue`) when any of
open/high/low/close is missing. `none` means the candle was skipped. -/
def deribit_extract_candle {α : Type} (zero : α) (c : Candle α) :
    Option (DeribitOhlcv α) :=
  match c.open_price, c.high, c.low, c.close with
  | some o, some h, some l, some cl =>
      some ⟨c.ts, o, h, l, cl, c.volume.getD zero, c.slot6⟩
  | _, _, _, _ => none

/-- The per-candle loop of deribit.py insert_comprehensive_data: each candle
is processed in its own try block; a skipped or failing candle falls through
to the next one, so the written rows are the successful extractions in order. -/
def deribit_insert_rows {α : Type} (zero : α) (batch : List (Candle α)) :
    List (DeribitOhlcv α) :=
  batch.filterMap (deribit_extract_candle zero)

/-- The OHLCV part of the row written by the parallel variant
(extract_crypto_data_parallel.py lines 360-366): every slot is taken as-is,
NULL included, with no presence check and no zero default. -/
structure ParallelOhlcv (α : Type) where
  ts : Nat
  open_price : Option α
  high : Option α
  low : Option α
  close : Option α
  volume : Option α
  trade_count : Option α

/-- extract_crypto_data_parallel.py lines 352-366: the candle fields are
copied straight into the row parameters. -/
def parallel_extract_candle {α : Type} (c : Candle α) : ParallelOhlcv α :=
  ⟨c.ts, c.open_price, c.high, c.low, c.close, c.volume, c.slot6⟩

/-- The per-candle loop of the parallel insert_comprehensive_data: every
candle of the batch is written. -/
def parallel_insert_rows {α : Type} (batch : List (Candle α)) :
    List (ParallelOhlcv α) :=
  batch.map parallel_extract_candle

/-! ## RateLimiter/BackoffController (fetch loop except clauses, both variants)

The two variants share this code verbatim (deribit.py lines 694-726,
extract_crypto_data_parallel.py lines 616-648).  `base` is
`rate_limit_seconds`; we keep every sleep as a Nat multiple of `base`, which
is exact because all source factors are integers. -/

/-- deribit.py lines 697-698: the backoff computed on ccxt.RateLimitExceeded.
The counter feeding the modulus is `batch_count`, the number of successfully
fetched batches so far. -/
def rate_limit_backoff (base batch_count : Nat) : Nat :=
  let backoff_multiplier := min (5 * (batch_count % 5 + 1)) 30
  max (base * backoff_multiplier) (base * 10)

/-- Substring test on character lists, embedding the Python `in` operator on
strings. -/
def chars_start_with : List Char → List Char → Bool
  | _, [] => true
  | [], _ :: _ => false
  | c :: cs, d :: ds => c == d && chars_start_with cs ds

/-- Containment of `pat` anywhere in `s`. -/
def chars_contain : List Char → List Char → Bool
  | [], pat => pat.isEmpty
  | c :: cs, pat => chars_start_with (c :: cs) pat || chars_contain cs pat

/-- Python `pat in s` for strings. -/
def str_contains (s pat : String) : Bool :=
  chars_contain s.data pat.data

/-- ASCII lowering of one character, the effect of Python str.lower on the
ASCII messages involved here. -/
def ascii_lower_char (c : Char) : Char :=
  if 'A' ≤ c ∧ c ≤ 'Z' then Char.ofNat (c.toNat + 32) else c

/-- The character list of the lowercased message. -/
def lower_chars (s : String) : List Char :=
  s.data.map ascii_lower_char

/-- Python `pat in s.lower()` for a lowercase pattern. -/
def lower_contains (s pat : String) : Bool :=
  chars_contain (lower_chars s) pat.data

/-- The exception surfaced by a fetch attempt: the two ccxt types caught by
name, or a generic exception carrying its message. -/
inductive FetchExc where
  | rateLimitExceeded
  | ddosProtection
  | generic (msg : String)

/-- The failure taxonomy of the spec, as the scripts classify it. -/
inductive FailureClass where
  | rateLimited
  | antiAbuseProtection
  | notFoundOrInvalid
  | transientOther
deriving DecidableEq

/-- The classification implicit in the except chain (deribit.py lines
694-726): the two typed ccxt exceptions first, then the message patterns of
the generic handler in source order (rate-limit patterns before the
not-found/invalid patterns, anything else transient). -/
def classify_failure : FetchExc → FailureClass
  | .rateLimitExceeded => .rateLimited
  | .ddosProtection => .antiAbuseProtection
  | .generic msg =>
      if lower_contains msg "rate limit" || str_contains msg "429" ||
          lower_contains msg "too many requests" then .rateLimited
      else if lower_contains msg "not found" || lower_contains msg "invalid"
        then .notFoundOrInvalid
      else .transientOther

/-- The mutable state of one fetch_all_public_data loop, as far as the
failure and persistence paths touch it: the cursor `current_since`, the
successful-batch counter, the running insert total, and the instrument-level
checkpoint timestamp written by save_checkpoint. -/
structure LoopState where
  current_since : Nat
  batch_count : Nat
  total_inserted : Nat
  checkpoint_ts : Option Nat
deriving DecidableEq

/-- Outcome of one except clause: the sleep performed, the loop state after
the handler, and whether the loop was broken out of (the unit aborted). -/
structure FailureOutcome where
  sleep : Nat
  st : LoopState
  aborted : Bool
deriving DecidableEq

/-- The except chain of the fetch loop (deribit.py lines 694-726, identical in
the parallel variant).  RateLimitExceeded sleeps the computed backoff plus the
temporary `base * 2` extra delay and continues; DDoSProtection sleeps
`max(base*20, base*10)` and continues; a generic message matching the
rate-limit patterns sleeps `base*10` and continues; one matching
not-found/invalid breaks out of the loop; anything else sleeps `base*2` and
continues.  No handler modifies the loop state. -/
def handle_fetch_failure (base : Nat) (st : LoopState) : FetchExc → FailureOutcome
  | .rateLimitExceeded =>
      ⟨rate_limit_backoff base st.batch_count + base * 2, st, false⟩
  | .ddosProtection => ⟨max (base * 20) (base * 10), st, false⟩
  | .generic msg =>
      match classify_failure (.generic msg) with
      | .rateLimited => ⟨base * 10, st, false⟩
      | .notFoundOrInvalid => ⟨0, st, true⟩
      | _ => ⟨base * 2, st, false⟩

/-- The loop state reached after n consecutive RateLimitExceeded failures
starting from st (each handler re-enters the loop on the unchanged state). -/
def state_after_rate_limits (base : Nat) (st : LoopState) : Nat → LoopState
  | 0 => st
  | n + 1 =>
      (handle_fetch_failure base (state_after_rate_limits base st n)
        .rateLimitExceeded).st

/-- The backoff computed at the (n+1)-th of a run of consecutive
RateLimitExceeded failures. -/
def nth_rate_limit_backoff (base : Nat) (st : LoopState) (n : Nat) : Nat :=
  rate_limit_backoff base (state_after_rate_limits base st n).batch_count

/-! ## BatchFetchLoop: one successful-fetch iteration (both variants)

deribit.py lines 636-692 / extract_crypto_data_parallel.py lines 560-614.
For the iteration logic only the candle timestamps and the insert outcome
matter, so a batch is its timestamp list.  insert_comprehensive_data commits
and returns the inserted count, or on a storage Error rolls the transaction
back and returns 0 (deribit.py lines 423-430, parallel lines 460-463). -/

/-- What the storage layer did with the batch handed to
insert_comprehensive_data. -/
inductive InsertOutcome where
  | ok (count : Nat)
  | storageError

/-- The (returned count, transaction rolled back) pair produced by
insert_comprehensive_data's outer try/except. -/
def insert_commit_or_rollback : InsertOutcome → Nat × Bool
  | .ok n => (n, false)
  | .storageError => (0, true)

/-- Result of one loop iteration whose fetch succeeded. -/
structure IterOutcome where
  st : LoopState
  rolled_back : Bool
  done : Bool
deriving DecidableEq

/-- One iteration of the fetch loop on a successfully fetched batch: an empty
batch breaks immediately; otherwise the batch counter advances, the insert
result is added to the total, the checkpoint timestamp is set to the last
candle timestamp only when the insert count is positive, the cursor becomes
last timestamp + 1, and the loop ends when the last timestamp has reached the
horizon cutoff. -/
def loop_iteration (horizon : Nat) (st : LoopState) (batch : List Nat)
    (ins : InsertOutcome) : IterOutcome :=
  match batch.getLast? with
  | none => ⟨st, false, true⟩
  | some lastTs =>
      let st1 := { st with batch_count := st.batch_count + 1 }
      let r := insert_commit_or_rollback ins
      let st2 := { st1 with total_inserted := st1.total_inserted + r.1 }
      let st3 :=
        if 0 < r.1 then { st2 with checkpoint_ts := some lastTs } else st2
      let st4 := { st3 with current_since := lastTs + 1 }
      ⟨st4, r.2, decide (horizon ≤ lastTs)⟩

/-! ## BatchFetchLoop: whole-loop termination on the success path

For the termination claim we run the loop against a pure data source mapping
a cursor to the timestamp list it returns, with no failures and no storage
errors; the loop exits only via the empty-batch break or the horizon cutoff
break.  Fuel makes the recursion structural; `none` means the fuel ran out
before the loop exited. -/

/-- How the fetch loop came to stop. -/
inductive LoopDone where
  | emptyBatch (cursor : Nat)
  | cutoffReached (lastTs : Nat)
deriving DecidableEq

/-- The while-True fetch loop over a pure source, success path only:
fetch at the cursor, break on an empty batch, otherwise advance the cursor to
last timestamp + 1 and break once the last timestamp reaches the horizon. -/
def batch_fetch_loop (source : Nat → List Nat) (horizon : Nat) :
    Nat → Nat → Option LoopDone
  | 0, _ => none
  | fuel + 1, cursor =>
      match (source cursor).getLast? with
      | none => some (.emptyBatch cursor)
      | some lastTs =>
          if horizon ≤ lastTs then some (.cutoffReached lastTs)
          else batch_fetch_loop source horizon fuel (lastTs + 1)

/-! ## Stale-table handling (check_and_clear_if_incomplete, both variants)

The table is its multiset of row timestamps (dates reduced to Nat); `none`
models a table that does not exist yet.  The function returns the table state
it leaves behind together with its boolean result. -/

/-- MAX(timestamp) of a table. -/
def table_max (rows : List Nat) : Option Nat :=
  rows.foldl (fun acc t =>
    match acc with
    | none => some t
    | some m => some (max m t)) none

/-- deribit.py check_and_clear_if_incomplete (lines 471-520): despite the
name, every branch returns False and no branch writes to the table — a stale
tail only logs a message and resumes forward. -/
def check_and_clear_deribit (table : Option (List Nat)) (cutoff_date : Nat) :
    Option (List Nat) × Bool :=
  match table with
  | none => (table, false)
  | some rows =>
      match table_max rows with
      | none => (table, false)
      | some last_date =>
          if last_date < cutoff_date then (table, false)
          else (table, false)

/-- extract_crypto_data_parallel.py check_and_clear_if_incomplete (lines
312-338): when the table has data and its last entry predates today, the
table is TRUNCATEd and True is returned; otherwise the table is untouched. -/
def check_and_clear_parallel (table : Option (List Nat)) (today : Nat) :
    Option (List Nat) × Bool :=
  match table with
  | none => (table, false)
  | some rows =>
      match table_max rows with
      | none => (table, false)
      | some last_date =>
          if last_date < today then (some [], true)
          else (table, false)

/-! ## CheckpointStore (load_checkpoint, both variants)

deribit.py lines 237-246 / extract_crypto_data_parallel.py lines 170-179.
The checkpoint document type and the json parser are external; the file state
is either missing or present with raw contents, and the parser either yields
a document or fails. -/

/-- The on-disk state of the checkpoint file. -/
inductive CheckpointFile where
  | missing
  | present (contents : String)

/-- load_checkpoint: a missing file yields the empty record, an existing file
is parsed inside try/except and a parse failure also yields the empty record;
every path returns normally. -/
def load_checkpoint {α : Type} (empty : α) (parse : String → Option α) :
    CheckpointFile → α
  | .missing => empty
  | .present contents =>
      match parse contents with
      | some checkpoint => checkpoint
      | none => empty

/-! # Theorems -/

/-- An association lookup into a map of positive values yields a positive
value. -/
theorem assoc_get_pos (m : List (String × Nat)) (hm : ∀ p ∈ m, 0 < p.2)
    (tf : String) (v : Nat) (h : assoc_get m tf = some v) : 0 < v := by
  induction m with
  | nil => exact Option.noConfusion h
  | cons p rest ih =>
      obtain ⟨k, val⟩ := p
      rw [assoc_get] at h
      by_cases hk : tf = k
      · rw [if_pos hk] at h
        injection h with h2
        have := hm (k, val) (List.mem_cons_self _ _)
        omega
      · rw [if_neg hk] at h
        exact ih (fun q hq => hm q (List.mem_cons_of_mem _ hq)) h

/-- Every value held in the timeframe map is positive. -/
theorem timeframe_map_lookup_pos (tf : String) (v : Nat)
    (h : timeframe_map_lookup tf = some v) : 0 < v :=
  assoc_get_pos timeframe_map (by decide) tf v h

/-- C9: the timeframe-to-duration conversion is a total pure function: every
input string yields a positive duration; the 16 known labels yield the exact
documented durations in both variants; any unrecognized label yields the
fixed default, 3,600,000 ms in the deribit variant and 60,000 ms in the
parallel variant. -/
theorem C9_timeframe_duration_total :
    (∀ tf, 0 < get_timeframe_duration_ms tf ∧
      0 < get_timeframe_duration_ms_parallel tf) ∧
    (∀ tf v, timeframe_map_lookup tf = some v →
      get_timeframe_duration_ms tf = v ∧
      get_timeframe_duration_ms_parallel tf = v) ∧
    (timeframe_map_lookup "1s" = some 1000 ∧
      timeframe_map_lookup "1m" = some 60000 ∧
      timeframe_map_lookup "3m" = some 180000 ∧
      timeframe_map_lookup "5m" = some 300000 ∧
      timeframe_map_lookup "15m" = some 900000 ∧
      timeframe_map_lookup "30m" = some 1800000 ∧
      timeframe_map_lookup "1h" = some 3600000 ∧
      timeframe_map_lookup "2h" = some 7200000 ∧
      timeframe_map_lookup "4h" = some 14400000 ∧
      timeframe_map_lookup "6h" = some 21600000 ∧
      timeframe_map_lookup "8h" = some 28800000 ∧
      timeframe_map_lookup "12h" = some 43200000 ∧
      timeframe_map_lookup "1d" = some 86400000 ∧
      timeframe_map_lookup "3d" = some 259200000 ∧
      timeframe_map_lookup "1w" = some 604800000 ∧
      timeframe_map_lookup "1M" = some 2592000000) ∧
    (∀ tf, timeframe_map_lookup tf = none →
      get_timeframe_duration_ms tf = 3600000 ∧
      get_timeframe_duration_ms_parallel tf = 60000) := by
  refine ⟨?_, ?_, ?_, ?_⟩
  · intro tf
    cases h : timeframe_map_lookup tf with
    | none =>
        simp [get_timeframe_duration_ms, get_timeframe_duration_ms_parallel, h]
    | some v =>
        have hv := timeframe_map_lookup_pos tf v h
        simp [get_timeframe_duration_ms, get_timeframe_duration_ms_parallel, h,
          hv]
  · intro tf v h
    simp [get_timeframe_duration_ms, get_timeframe_duration_ms_parallel, h]
  · exact ⟨rfl, rfl, rfl, rfl, rfl, rfl, rfl, rfl, rfl, rfl, rfl, rfl, rfl,
      rfl, rfl, rfl⟩
  · intro tf h
    simp [get_timeframe_duration_ms, get_timeframe_duration_ms_parallel, h]

/-- Witness for C9 at the unrecognized label "7z": both defaults fire. -/
theorem C9_timeframe_duration_total_witness :
    get_timeframe_duration_ms "7z" = 3600000 ∧
    get_timeframe_duration_ms_parallel "7z" = 60000 :=
  C9_timeframe_duration_total.2.2.2 "7z" rfl

/-- C10: load_checkpoint never raises: a missing checkpoint file yields the
empty record, and an existing file whose contents fail to parse also yields
the empty record, for any checkpoint document type and parser. -/
theorem C10_load_checkpoint_recovers :
    (∀ (α : Type) (empty : α) (parse : String → Option α),
      load_checkpoint empty parse .missing = empty) ∧
    (∀ (α : Type) (empty : α) (parse : String → Option α) (contents : String),
      parse contents = none →
      load_checkpoint empty parse (.present contents) = empty) := by
  constructor
  · intro α empty parse
    rfl
  · intro α empty parse contents h
    simp [load_checkpoint, h]

/-- Witness for C10: a parser that rejects the corrupt contents yields the
empty record. -/
theorem C10_load_checkpoint_recovers_witness :
    load_checkpoint (0 : Nat) (fun _ => none) (.present "corrupt json") = 0 :=
  C10_load_checkpoint_recovers.2 Nat 0 (fun _ => none) "corrupt json" rfl

/-- C1: the deribit variant resolves `since` exactly as the claim states
(max of the two timestamps plus one timeframe duration, a single existing
timestamp plus one duration, else listing time or the 5-year default), but the
parallel variant drops the checkpoint timestamp: with checkpoint timestamp
2000, no storage timestamp and listing time 777, it starts at 777 instead of
the claimed 2000 plus one timeframe duration. -/
theorem C1_resolve_since_checkpoint_dropped :
    (∀ c d tf created now_ms,
      resolve_since_deribit (some c) (some d) tf created now_ms =
        max c d + get_timeframe_duration_ms tf) ∧
    (∀ c tf created now_ms,
      resolve_since_deribit (some c) none tf created now_ms =
        c + get_timeframe_duration_ms tf) ∧
    (∀ d tf created now_ms,
      resolve_since_deribit none (some d) tf created now_ms =
        d + get_timeframe_duration_ms tf) ∧
    (∀ tf listing now_ms,
      resolve_since_deribit none none tf (some listing) now_ms = listing) ∧
    (∀ tf now_ms,
      resolve_since_deribit none none tf none now_ms =
        now_ms - 5 * 365 * 24 * 60 * 60 * 1000) ∧
    (resolve_since_parallel (some 2000) none "1h" (some 777) 900000000 = 777 ∧
      2000 + get_timeframe_duration_ms_parallel "1h" = 3602000 ∧
      (777 : Nat) < 3602000) := by
  refine ⟨fun c d tf created now_ms => rfl, fun c tf created now_ms => rfl,
    fun d tf created now_ms => rfl, fun tf listing now_ms => rfl,
    fun tf now_ms => rfl, rfl, rfl, ?_⟩
  omega

/-- COALESCE(VALUES(col), col) satisfies the field-wise contract: incoming
NULL keeps the stored value, incoming non-NULL replaces it. -/
theorem coalesce_is_ok {α : Type} (incoming stored : Option α) :
    coalesce_ok incoming stored (coalesce incoming stored) := by
  cases incoming <;> simp [coalesce_ok, coalesce]

/-- A stored parallel-variant row holding a non-null ticker_bid. -/
def parallel_stored_row : ParallelRow Int :=
  { (default : ParallelRow Int) with
    open_price := some 10, high := some 12, low := some 9, close := some 11,
    volume := some 3, ticker_bid := some 5 }

/-- An incoming parallel-variant row for the same timestamp key whose
ticker_bid is null. -/
def parallel_incoming_row : ParallelRow Int :=
  { (default : ParallelRow Int) with
    open_price := some 10, high := some 12, low := some 9, close := some 11,
    volume := some 3 }

/-- C2 counterexample: in the parallel variant the upsert of an existing key
replaces the stored non-null ticker_bid 5 with the incoming null, which the
claim forbids for every upsert. -/
theorem C2_counterexample_parallel_null_overwrite :
    parallel_stored_row.ticker_bid = some 5 ∧
    parallel_incoming_row.ticker_bid = none ∧
    (parallel_upsert_update parallel_stored_row parallel_incoming_row).ticker_bid
      = none :=
  ⟨rfl, rfl, rfl⟩

/-- C2 amended: in the deribit variant, OHLCV is overwritten unconditionally
and the ticker, order-book, funding and open-interest fields follow COALESCE
(incoming null keeps the stored value, incoming non-null replaces it), but
the option fields (strike_price, option_type, expiry_date) and the two extra
funding columns are never updated on an existing key, so a non-null incoming
value does not replace them; in the parallel variant every field of the
update list, auxiliary fields included, is overwritten with the incoming
value, null or not. -/
theorem C2_upsert_field_semantics :
    (∀ (α : Type) (stored incoming : DeribitRow α),
      (deribit_upsert_update stored incoming).open_price = incoming.open_price ∧
      (deribit_upsert_update stored incoming).high = incoming.high ∧
      (deribit_upsert_update stored incoming).low = incoming.low ∧
      (deribit_upsert_update stored incoming).close = incoming.close ∧
      (deribit_upsert_update stored incoming).volume = incoming.volume ∧
      coalesce_ok incoming.quote_volume stored.quote_volume
        (deribit_upsert_update stored incoming).quote_volume ∧
      coalesce_ok incoming.bid stored.bid
        (deribit_upsert_update stored incoming).bid ∧
      coalesce_ok incoming.ask stored.ask
        (deribit_upsert_update stored incoming).ask ∧
      coalesce_ok incoming.bid_volume stored.bid_volume
        (deribit_upsert_update stored incoming).bid_volume ∧
      coalesce_ok incoming.ask_volume stored.ask_volume
        (deribit_upsert_update stored incoming).ask_volume ∧
      coalesce_ok incoming.last_price stored.last_price
        (deribit_upsert_update stored incoming).last_price ∧
      coalesce_ok incoming.change_24h stored.change_24h
        (deribit_upsert_update stored incoming).change_24h ∧
      coalesce_ok incoming.change_percent_24h stored.change_percent_24h
        (deribit_upsert_update stored incoming).change_percent_24h ∧
      coalesce_ok incoming.funding_rate stored.funding_rate
        (deribit_upsert_update stored incoming).funding_rate ∧
      coalesce_ok incoming.open_interest stored.open_interest
        (deribit_upsert_update stored incoming).open_interest ∧
      coalesce_ok incoming.best_bid stored.best_bid
        (deribit_upsert_update stored incoming).best_bid ∧
      coalesce_ok incoming.best_ask stored.best_ask
        (deribit_upsert_update stored incoming).best_ask ∧
      coalesce_ok incoming.best_bid_size stored.best_bid_size
        (deribit_upsert_update stored incoming).best_bid_size ∧
      coalesce_ok incoming.best_ask_size stored.best_ask_size
        (deribit_upsert_update stored incoming).best_ask_size ∧
      (deribit_upsert_update stored incoming).funding_rate_next =
        stored.funding_rate_next ∧
      (deribit_upsert_update stored incoming).funding_rate_predicted =
        stored.funding_rate_predicted ∧
      (deribit_upsert_update stored incoming).strike_price =
        stored.strike_price ∧
      (deribit_upsert_update stored incoming).option_type =
        stored.option_type ∧
      (deribit_upsert_update stored incoming).expiry_date =
        stored.expiry_date) ∧
    (∀ (α : Type) (stored incoming : ParallelRow α),
      parallel_upsert_update stored incoming = incoming) := by
  constructor
  · intro α stored incoming
    exact ⟨rfl, rfl, rfl, rfl, rfl, coalesce_is_ok _ _, coalesce_is_ok _ _,
      coalesce_is_ok _ _, coalesce_is_ok _ _, coalesce_is_ok _ _,
      coalesce_is_ok _ _, coalesce_is_ok _ _, coalesce_is_ok _ _,
      coalesce_is_ok _ _, coalesce_is_ok _ _, coalesce_is_ok _ _,
      coalesce_is_ok _ _, coalesce_is_ok _ _, coalesce_is_ok _ _,
      rfl, rfl, rfl, rfl, rfl⟩
  · intro α stored incoming
    rfl

/-- A stored deribit-variant row holding a non-null bid. -/
def deribit_stored_row : DeribitRow Int :=
  { (default : DeribitRow Int) with
    open_price := some 10, high := some 12, low := some 9, close := some 11,
    volume := some 3, bid := some 9 }

/-- An incoming deribit-variant row for the same timestamp key whose bid is
null. -/
def deribit_incoming_row : DeribitRow Int :=
  { (default : DeribitRow Int) with
    open_price := some 10, high := some 12, low := some 9, close := some 11,
    volume := some 3 }

/-- Witness for C2: the deribit upsert keeps the stored bid 9 against an
incoming null, and the parallel upsert at the counterexample rows yields the
incoming row verbatim. -/
theorem C2_upsert_field_semantics_witness :
    (deribit_upsert_update deribit_stored_row deribit_incoming_row).bid
      = some 9 ∧
    parallel_upsert_update parallel_stored_row parallel_incoming_row
      = parallel_incoming_row := by
  have h := C2_upsert_field_semantics.1 Int deribit_stored_row
    deribit_incoming_row
  obtain ⟨-, -, -, -, -, -, hbid, -⟩ := h
  exact ⟨hbid.1 rfl,
    C2_upsert_field_semantics.2 Int parallel_stored_row parallel_incoming_row⟩

/-- A candle whose open price is missing. -/
def candle_missing_open : Candle Int :=
  ⟨100, none, some 2, some 1, some 2, none, none⟩

/-- C3 counterexample: the parallel variant writes the candle with the null
open price instead of skipping it, and stores its null volume as null rather
than zero. -/
theorem C3_counterexample_parallel_writes_null_ohlc :
    parallel_insert_rows [candle_missing_open] =
      [⟨100, none, some 2, some 1, some 2, none, none⟩] ∧
    (parallel_insert_rows [candle_missing_open]).length = 1 :=
  ⟨rfl, rfl⟩

/-- C3 amended: in the deribit variant a candle with any null OHLC field is
skipped without being written and without stopping the rest of the batch, and
a written row stores a null volume as zero; the parallel variant has no such
check — it writes every candle of the batch, null OHLC fields and null volume
included, the volume staying null rather than becoming zero. -/
theorem C3_null_ohlc_skip :
    (∀ (α : Type) (zero : α) (c : Candle α),
      (c.open_price = none ∨ c.high = none ∨ c.low = none ∨ c.close = none) →
        deribit_extract_candle zero c = none) ∧
    (∀ (α : Type) (zero : α) (c : Candle α) (r : DeribitOhlcv α),
      deribit_extract_candle zero c = some r → c.volume = none →
        r.volume = zero) ∧
    (∀ (α : Type) (zero : α) (bad : Candle α) (batch : List (Candle α)),
      deribit_extract_candle zero bad = none →
        deribit_insert_rows zero (bad :: batch) = deribit_insert_rows zero batch) ∧
    (∀ (α : Type) (batch : List (Candle α)),
      (parallel_insert_rows batch).length = batch.length ∧
      ∀ c ∈ batch, parallel_extract_candle c ∈ parallel_insert_rows batch ∧
        (parallel_extract_candle c).volume = c.volume) := by
  refine ⟨?_, ?_, ?_, ?_⟩
  · intro α zero c hmiss
    obtain ⟨ts, o, hi, lo, cl, v, s6⟩ := c
    cases o <;> cases hi <;> cases lo <;> cases cl <;>
      simp_all [deribit_extract_candle]
  · intro α zero c r hr hv
    obtain ⟨ts, o, hi, lo, cl, v, s6⟩ := c
    cases o <;> cases hi <;> cases lo <;> cases cl <;> cases v <;>
      simp_all [deribit_extract_candle]
    simp [← hr]
  · intro α zero bad batch hbad
    simp [deribit_insert_rows, List.filterMap_cons, hbad]
  · intro α batch
    refine ⟨by simp [parallel_insert_rows], ?_⟩
    intro c hc
    exact ⟨List.mem_map_of_mem parallel_extract_candle hc, rfl⟩

/-- A candle with full OHLC but a missing volume. -/
def candle_null_volume : Candle Int :=
  ⟨200, some 1, some 2, some 1, some 2, none, none⟩

/-- Witness for C3: the deribit variant skips the open-less candle while the
rest of the batch is still written, and stores the null volume of a complete
candle as zero. -/
theorem C3_null_ohlc_skip_witness :
    deribit_extract_candle (0 : Int) candle_missing_open = none ∧
    deribit_insert_rows (0 : Int) [candle_missing_open, candle_null_volume] =
      deribit_insert_rows (0 : Int) [candle_null_volume] ∧
    (⟨200, 1, 2, 1, 2, 0, none⟩ : DeribitOhlcv Int).volume = 0 :=
  ⟨C3_null_ohlc_skip.1 Int 0 candle_missing_open (Or.inl rfl),
   C3_null_ohlc_skip.2.2.1 Int 0 candle_missing_open [candle_null_volume]
     (C3_null_ohlc_skip.1 Int 0 candle_missing_open (Or.inl rfl)),
   C3_null_ohlc_skip.2.1 Int 0 candle_null_volume ⟨200, 1, 2, 1, 2, 0, none⟩
     rfl rfl⟩

/-- The except handlers leave the loop state untouched, so any run of
consecutive RateLimitExceeded failures keeps the state of its first one. -/
theorem state_after_rate_limits_fixed (base : Nat) (st : LoopState) :
    ∀ n, state_after_rate_limits base st n = st := by
  intro n
  induction n with
  | zero => rfl
  | succ n ih => simp [state_after_rate_limits, ih, handle_fetch_failure]

/-- C4: on a RateLimited failure with base interval base and counter
batch_count, the computed backoff equals
max(base * 10, base * min(5 * (batch_count mod 5 + 1), 30)); across any run
of 10 consecutive RateLimited failures the computed backoffs are
non-decreasing (the counter does not move on failure, so they are equal),
never exceed base * 30, and every such failure retries rather than aborting,
with no attempt cap. -/
theorem C4_rate_limit_backoff_policy :
    (∀ base batch_count, rate_limit_backoff base batch_count =
      max (base * 10) (base * min (5 * (batch_count % 5 + 1)) 30)) ∧
    (∀ base st i j, i ≤ j → j < 10 →
      nth_rate_limit_backoff base st i ≤ nth_rate_limit_backoff base st j) ∧
    (∀ base st n, nth_rate_limit_backoff base st n ≤ base * 30) ∧
    (∀ base st n,
      (handle_fetch_failure base (state_after_rate_limits base st n)
        .rateLimitExceeded).aborted = false) := by
  refine ⟨?_, ?_, ?_, ?_⟩
  · intro base batch_count
    simp [rate_limit_backoff, Nat.max_comm]
  · intro base st i j _ _
    simp only [nth_rate_limit_backoff, state_after_rate_limits_fixed]
    exact le_rfl
  · intro base st n
    simp only [nth_rate_limit_backoff, state_after_rate_limits_fixed]
    apply max_le
    · exact Nat.mul_le_mul (Nat.le_refl base) (min_le_right _ _)
    · exact Nat.mul_le_mul (Nat.le_refl base) (by omega)
  · intro base st n
    rfl

/-- Witness for C4: with base 50 and a loop that has fetched 3 batches, the
backoffs at the 3rd and 8th consecutive rate-limit failures are ordered. -/
theorem C4_rate_limit_backoff_policy_witness :
    nth_rate_limit_backoff 50 ⟨0, 3, 0, none⟩ 2 ≤
      nth_rate_limit_backoff 50 ⟨0, 3, 0, none⟩ 7 :=
  C4_rate_limit_backoff_policy.2.1 50 ⟨0, 3, 0, none⟩ 2 7 (by omega) (by omega)

/-- C6: a failure the except chain classifies RateLimited,
AntiAbuseProtection or TransientOther leaves the loop state (cursor, counters
and checkpoint timestamp) untouched, sleeps a positive duration when the base
interval is positive, and re-enters the loop; a failure classified
NotFoundOrInvalid (its message matching the not-found/invalid patterns)
breaks out of the loop at once, the state — the partial results already
written — preserved. -/
theorem C6_failure_classification_policy :
    ∀ (base : Nat) (st : LoopState) (e : FetchExc),
      (classify_failure e = .rateLimited ∨
        classify_failure e = .antiAbuseProtection ∨
        classify_failure e = .transientOther →
        (handle_fetch_failure base st e).st = st ∧
        (handle_fetch_failure base st e).aborted = false ∧
        (0 < base → 0 < (handle_fetch_failure base st e).sleep)) ∧
      (classify_failure e = .notFoundOrInvalid →
        (handle_fetch_failure base st e).aborted = true ∧
        (handle_fetch_failure base st e).st = st ∧
        (handle_fetch_failure base st e).st.total_inserted =
          st.total_inserted) := by
  intro base st e
  cases e with
  | rateLimitExceeded =>
      refine ⟨fun _ => ⟨rfl, rfl, fun hb => ?_⟩, fun hc => ?_⟩
      · have h2 : 0 < base * 2 := by omega
        have : (handle_fetch_failure base st .rateLimitExceeded).sleep =
            rate_limit_backoff base st.batch_count + base * 2 := rfl
        omega
      · exact absurd hc (by simp [classify_failure])
  | ddosProtection =>
      refine ⟨fun _ => ⟨rfl, rfl, fun hb => ?_⟩, fun hc => ?_⟩
      · have h10 : base * 10 ≤ max (base * 20) (base * 10) :=
          le_max_right _ _
        have : (handle_fetch_failure base st .ddosProtection).sleep =
            max (base * 20) (base * 10) := rfl
        omega
      · exact absurd hc (by simp [classify_failure])
  | generic msg =>
      cases hc : classify_failure (.generic msg) with
      | rateLimited =>
          refine ⟨fun _ => ⟨?_, ?_, fun hb => ?_⟩, fun hx => ?_⟩ <;>
            simp_all [handle_fetch_failure]
      | antiAbuseProtection =>
          refine ⟨fun _ => ⟨?_, ?_, fun hb => ?_⟩, fun hx => ?_⟩ <;>
            simp_all [handle_fetch_failure]
      | notFoundOrInvalid =>
          refine ⟨fun hx => ?_, fun _ => ?_⟩
          · rcases hx with hx | hx | hx <;> simp_all
          · refine ⟨?_, ?_, ?_⟩ <;> simp [handle_fetch_failure, hc]
      | transientOther =>
          refine ⟨fun _ => ⟨?_, ?_, fun hb => ?_⟩, fun hx => ?_⟩ <;>
            simp_all [handle_fetch_failure]

/-- Witness for C6: a transient message retries on the unchanged state and a
not-found message aborts with the state preserved. -/
theorem C6_failure_classification_policy_witness :
    (handle_fetch_failure 50 ⟨5, 3, 7, some 99⟩
      (.generic "connection reset by peer")).st = ⟨5, 3, 7, some 99⟩ ∧
    (handle_fetch_failure 50 ⟨5, 3, 7, some 99⟩
      (.generic "instrument not found")).aborted = true :=
  ⟨((C6_failure_classification_policy 50 ⟨5, 3, 7, some 99⟩
      (.generic "connection reset by peer")).1 (Or.inr (Or.inr rfl))).1,
   ((C6_failure_classification_policy 50 ⟨5, 3, 7, some 99⟩
      (.generic "instrument not found")).2 rfl).1⟩

/-- C7 counterexample: at cursor 100, the batch with timestamps 200 and 300
fails to persist; the transaction is rolled back and the checkpoint is not
advanced, but the next iteration runs at cursor 301, not 100 — the cursor
advances past the failed batch instead of retrying it. -/
theorem C7_counterexample_cursor_advances :
    (loop_iteration 1000000 ⟨100, 0, 0, none⟩ [200, 300]
      .storageError).rolled_back = true ∧
    (loop_iteration 1000000 ⟨100, 0, 0, none⟩ [200, 300]
      .storageError).st.checkpoint_ts = none ∧
    (loop_iteration 1000000 ⟨100, 0, 0, none⟩ [200, 300]
      .storageError).st.current_since = 301 ∧
    (301 : Nat) ≠ 100 :=
  ⟨rfl, rfl, rfl, by omega⟩

/-- C7 amended: when the storage write of a batch fails, the transaction is
rolled back, the checkpoint timestamp and the insert total are not advanced
for that batch, but the batch is not retried: the cursor still moves to the
batch's last timestamp plus one, past the failed batch. -/
theorem C7_persistence_failure_semantics :
    ∀ (horizon : Nat) (st : LoopState) (batch : List Nat) (lastTs : Nat),
      batch.getLast? = some lastTs →
      (loop_iteration horizon st batch .storageError).rolled_back = true ∧
      (loop_iteration horizon st batch .storageError).st.checkpoint_ts =
        st.checkpoint_ts ∧
      (loop_iteration horizon st batch .storageError).st.total_inserted =
        st.total_inserted ∧
      (loop_iteration horizon st batch .storageError).st.current_since =
        lastTs + 1 := by
  intro horizon st batch lastTs h
  simp [loop_iteration, h, insert_commit_or_rollback]

/-- Witness for C7 at the counterexample batch. -/
theorem C7_persistence_failure_semantics_witness :
    (loop_iteration 1000000 ⟨100, 0, 5, some 50⟩ [200, 300]
      .storageError).st.checkpoint_ts = some 50 ∧
    (loop_iteration 1000000 ⟨100, 0, 5, some 50⟩ [200, 300]
      .storageError).st.current_since = 301 :=
  ⟨(C7_persistence_failure_semantics 1000000 ⟨100, 0, 5, some 50⟩ [200, 300]
      300 rfl).2.1,
   (C7_persistence_failure_semantics 1000000 ⟨100, 0, 5, some 50⟩ [200, 300]
      300 rfl).2.2.2⟩

/-- C8 counterexample: the parallel variant, finding a table whose last entry
100 predates today 200, truncates it: the row at timestamp 100 present before
the run is gone after it. -/
theorem C8_counterexample_parallel_truncates :
    check_and_clear_parallel (some [100]) 200 = (some [], true) ∧
    100 ∈ [100] ∧ 100 ∉ ([] : List Nat) :=
  ⟨rfl, by simp, by simp⟩

/-- C8 amended: the deribit variant never deletes existing data — its
check_and_clear_if_incomplete leaves the table unchanged and returns False on
every input, so the run resumes forward append-only; the parallel variant
instead truncates a table whose last entry predates the current day,
deleting every previously persisted row of that stream. -/
theorem C8_stale_table_policy :
    (∀ (table : Option (List Nat)) (cutoff_date : Nat),
      check_and_clear_deribit table cutoff_date = (table, false)) ∧
    (∀ (rows : List Nat) (today last_date : Nat),
      table_max rows = some last_date → last_date < today →
      check_and_clear_parallel (some rows) today = (some [], true)) := by
  constructor
  · intro table cutoff_date
    cases table with
    | none => rfl
    | some rows =>
        cases htm : table_max rows with
        | none => simp [check_and_clear_deribit, htm]
        | some last_date =>
            simp only [check_and_clear_deribit, htm]
            split <;> rfl
  · intro rows today last_date htm hlt
    simp [check_and_clear_parallel, htm, hlt]

/-- Witness for C8: the deribit variant keeps the same one-row table that the
parallel variant truncates. -/
theorem C8_stale_table_policy_witness :
    check_and_clear_deribit (some [100]) 200 = (some [100], false) ∧
    check_and_clear_parallel (some [100]) 200 = (some [], true) :=
  ⟨C8_stale_table_policy.1 (some [100]) 200,
   C8_stale_table_policy.2 [100] 200 100 rfl (by omega)⟩

/-- C5: against a data source whose batches only contain timestamps at or
after the requested cursor (the strictly-increasing honoring of `since`), the
fetch loop terminates within horizon-bounded fuel, and the result is DONE
exactly through one of the two exits: the fetch at the final cursor returned
an empty batch, or the last returned timestamp reached the horizon. -/
theorem C5_batch_loop_cutoff_termination :
    ∀ (source : Nat → List Nat) (horizon : Nat),
      (∀ s t, t ∈ source s → s ≤ t) →
      ∀ fuel cursor, horizon + 1 ≤ fuel + cursor → 1 ≤ fuel →
        ∃ r, batch_fetch_loop source horizon fuel cursor = some r ∧
          ((∃ cur, r = .emptyBatch cur ∧ (source cur).getLast? = none) ∨
           (∃ lastTs, r = .cutoffReached lastTs ∧ horizon ≤ lastTs)) := by
  intro source horizon hsince fuel
  induction fuel with
  | zero => intro cursor hfuel hpos; omega
  | succ fuel ih =>
      intro cursor hfuel _
      cases hlast : (source cursor).getLast? with
      | none =>
          exact ⟨.emptyBatch cursor, by simp [batch_fetch_loop, hlast],
            Or.inl ⟨cursor, rfl, hlast⟩⟩
      | some lastTs =>
          have hmem : lastTs ∈ source cursor := by
            obtain ⟨hne, heq⟩ :=
              List.mem_getLast?_eq_getLast (l := source cursor)
                (x := lastTs) hlast
            exact heq ▸ List.getLast_mem hne
          have hcl : cursor ≤ lastTs := hsince cursor lastTs hmem
          by_cases hcut : horizon ≤ lastTs
          · exact ⟨.cutoffReached lastTs,
              by simp [batch_fetch_loop, hlast, hcut],
              Or.inr ⟨lastTs, rfl, hcut⟩⟩
          · obtain ⟨r, hr, hp⟩ := ih (lastTs + 1) (by omega) (by omega)
            refine ⟨r, ?_, hp⟩
            simp [batch_fetch_loop, hlast, hcut, hr]

/-- Witness for C5: a synthetic source of three strictly increasing
timestamps per batch, horizon 5: the loop stops and reports the cutoff. -/
theorem C5_batch_loop_cutoff_termination_witness :
    ∃ r, batch_fetch_loop (fun s => [s, s + 1, s + 2]) 5 10 0 = some r ∧
      ((∃ cur, r = .emptyBatch cur ∧
          ((fun s => [s, s + 1, s + 2]) cur : List Nat).getLast? = none) ∨
       (∃ lastTs, r = .cutoffReached lastTs ∧ 5 ≤ lastTs)) :=
  C5_batch_loop_cutoff_termination (fun s => [s, s + 1, s + 2]) 5
    (by
      intro s t ht
      simp at ht
      rcases ht with rfl | rfl | rfl <;> omega)
    10 0 (by omega) (by omega)

end CryptoData
